import Mathlib

/-!
Verification of `backfill.py` (mstange/perf-tools).

The script is sequential orchestration of external effects (HTTP downloads,
adb install/uninstall, git/gradle subprocesses, an external measurement
script).  We embed it shallowly:

* the external world is an explicit oracle `Env` (one field per kind of
  external call, giving that call's outcome);
* each Python function becomes a Lean function returning the list of
  external actions it performs (`List Event`) together with its Python
  return value; a function that can raise an uncaught Python exception
  returns `Except PyExc _`;
* `datetime` values are days since 1970-01-01 (an `Int`); `timedelta(days=i)`
  addition and `(a - b).days` become integer addition and subtraction, and
  `strftime("%Y.%m.%d")` is implemented with the standard civil-from-days
  conversion for the proleptic Gregorian calendar;
* Python string formatting of the fixed templates becomes string
  concatenation, `os.path.join` becomes concatenation with "/";
* stderr logging (`print(..., file=sys.stderr)`) is an event carrying a
  `LogMsg` value that records which message was printed and its data.

The module `analyze_durations` imported by `backfill.py` is not part of the
given sources; the three calls into it are modelled from the spec (marked in
their doc comments).
-/

set_option linter.unusedVariables false

namespace Backfill

/-- Embedding of the module constant NIGHTLY_BASE_URL, split at its single
`{date}` placeholder: the part of the URL before the date. -/
def NIGHTLY_URL_PREFIX : String :=
  "https://firefox-ci-tc.services.mozilla.com/api/index/v1/task/mobile.v2.fenix.nightly."

/-- The part of NIGHTLY_BASE_URL after the `{date}` placeholder. -/
def NIGHTLY_URL_SUFFIX : String :=
  ".latest.armeabi-v7a/artifacts/public%2Fbuild%2Farmeabi-v7a%2Ftarget.apk"

/-- Embedding of `NIGHTLY_BASE_URL.format(date=...)`: the template has one
placeholder, so formatting is concatenation around the date string. -/
def NIGHTLY_BASE_URL_format (date : String) : String :=
  NIGHTLY_URL_PREFIX ++ date ++ NIGHTLY_URL_SUFFIX

/-- Module constant BACKFILL_DIR. -/
def BACKFILL_DIR : String := "backfill_output"

/-- Module constant BUILD_SRC_TASKCLUSTER. -/
def BUILD_SRC_TASKCLUSTER : String := "taskclusterNightly"

/-- Module constant BUILD_SRC_COMMITS. -/
def BUILD_SRC_COMMITS : String := "commitsRange"

/-- Module constant MEASURE_START_UP_SCRIPT. -/
def MEASURE_START_UP_SCRIPT : String := "./measure_start_up.py"

/-- Embedding of the dict FENIX_CHANNEL_TO_PKG; `none` corresponds to a
KeyError on lookup. -/
def FENIX_CHANNEL_TO_PKG : String → Option String
  | "nightly" => some "org.mozilla.fenix"
  | "beta" => some "org.mozilla.firefox.beta"
  | "release" => some "org.mozilla.firefox"
  | "debug" => some "org.mozilla.fenix.debug"
  | _ => none

/-- Embedding of `DURATIONS_OUTPUT_FILE_TEMPLATE.format(run_number=..., apk=...)`. -/
def DURATIONS_OUTPUT_FILE_TEMPLATE_format (run_number : Nat) (apk : String) : String :=
  toString run_number ++ "_durations_for_" ++ apk ++ ".txt"

/-- Embedding of `ANALYZED_DURATIONS_FILE_TEMPLATE.format(run_number=..., apk_name=...)`. -/
def ANALYZED_DURATIONS_FILE_TEMPLATE_format (run_number : Nat) (apk_name : String) : String :=
  toString run_number ++ "_" ++ apk_name ++ "_perf_results.txt"

/-- Embedding of `os.path.join` for two components on a POSIX system. -/
def os_path_join (a b : String) : String := a ++ "/" ++ b

/-- Civil calendar date (year, month, day) from a count of days since
1970-01-01 in the proleptic Gregorian calendar (the standard
civil-from-days algorithm); supports the embedding of
`datetime.strftime(date, "%Y.%m.%d")`. -/
def civilFromDays (days : Int) : Int × Nat × Nat :=
  let z := days + 719468
  let era := Int.fdiv z 146097
  let doe := (z - era * 146097).toNat
  let yoe := (doe - doe / 1460 + doe / 36524 - doe / 146096) / 365
  let doy := doe - (365 * yoe + yoe / 4 - yoe / 100)
  let mp := (5 * doy + 2) / 153
  let d := doy - (153 * mp + 2) / 5 + 1
  let m := if mp < 10 then mp + 3 else mp - 9
  ((yoe : Int) + era * 400 + (if m ≤ 2 then 1 else 0), m, d)

/-- Zero-pad the decimal representation of a number to a given width. -/
def padNum (width : Nat) (n : Nat) : String :=
  let s := toString n
  String.mk (List.replicate (width - s.length) '0') ++ s

/-- Embedding of `datetime.strftime(date, DATETIME_FORMAT)` with
DATETIME_FORMAT = "%Y.%m.%d", for a date given as days since 1970-01-01. -/
def strftimeYMD (days : Int) : String :=
  let c := civilFromDays days
  padNum 4 c.1.toNat ++ "." ++ padNum 2 c.2.1 ++ "." ++ padNum 2 c.2.2

/-- Embedding of `s.replace(".", "_")` (the pattern is a single character,
so the replacement is a character map). -/
def replaceDotByUnderscore (s : String) : String :=
  String.mk (s.data.map (fun c => if c == '.' then '_' else c))

/-- Embedding of `s.split(".")[0]`: the portion of `s` before its first
dot (Python split always returns a non-empty list, so index 0 is the
text before the first separator). -/
def splitDotHead (s : String) : String :=
  String.mk (s.data.takeWhile (fun c => c != '.'))

/-- A build descriptor: the dict built with KEY_NAME, KEY_DATETIME,
KEY_COMMIT, KEY_ARCHITECTURE.  The nightly path stores a datetime under
KEY_DATETIME and the commit path stores "", so the field is an `Option Int`
(days since epoch). -/
structure ApkMetadata where
  name : String
  date : Option Int
  commit : String
  architecture : String
  deriving DecidableEq, Repr

/-- Outcome of one `urllib.request.urlretrieve` call. -/
inductive HttpOutcome where
  /-- The download succeeded. -/
  | success
  /-- The download raised `urllib.error.HTTPError` with this status code. -/
  | httpError (code : Nat)
  /-- The download raised some exception that is not an HTTPError. -/
  | otherError (msg : String)
  deriving DecidableEq, Repr

/-- Result of one `subprocess.run` call: exit code, captured stdout and
stderr (as text). -/
structure ProcResult where
  returncode : Int
  stdout : String
  stderr : String
  deriving DecidableEq, Repr

/-- The stderr messages the script can print, with the data interpolated
into them. -/
inductive LogMsg where
  /-- fetch_nightly: the apk for a date is not available (HTTP 404). -/
  | apkNotAvailable (date : Int) (url : String)
  /-- install_apk: `adb install` failed. -/
  | unableToInstall (apk : String)
  /-- uninstall_apk: `adb uninstall` failed. -/
  | unableToUninstall (packageId : String)
  /-- get_result_from_durations: the durations file does not exist. -/
  | fileDoesNotExist (file : String)
  /-- fetch_repository: `git fetch` failed. -/
  | fetchFailed (repo : String) (err : String)
  /-- build_apk_for_commit: `git checkout` failed. -/
  | checkoutFailed (commit : String) (err : String)
  /-- build_apk_for_commit: `gradlew assemble` failed (the source
  interpolates the checkout stderr here). -/
  | assembleFailed (buildType : String) (err : String)
  deriving DecidableEq, Repr

/-- One external action performed by the script, in program order. -/
inductive Event where
  /-- `urllib.request.urlretrieve(url, filename)`. -/
  | httpDownload (url : String) (filename : String)
  /-- A message printed to standard error. -/
  | logErr (msg : LogMsg)
  /-- `adb uninstall packageId`. -/
  | adbUninstall (packageId : String)
  /-- `adb install apkPath`. -/
  | adbInstall (apkPath : String)
  /-- `Path(dir).mkdir(parents=True, exist_ok=True)`. -/
  | mkdirOutput (dir : String)
  /-- Invocation of the external measurement script with a build type and
  the durations output path. -/
  | runScript (script : String) (buildType : String) (durationsOutputPath : String)
  /-- Reading the durations file. -/
  | readDurations (path : String)
  /-- Writing the aggregated statistics file. -/
  | writeStats (path : String)
  /-- `git fetch remote` run in the repository. -/
  | gitFetch (remote : String) (repo : String)
  /-- `git rev-list --ancestry-path range`. -/
  | gitRevList (range : String)
  /-- `git checkout commit`. -/
  | gitCheckout (commit : String)
  /-- `./gradlew assembleBuildType`. -/
  | gradleAssemble (buildType : String)
  /-- `mv src dst`. -/
  | mvFile (src : String) (dst : String)
  /-- `rm path` (cleanup). -/
  | rmFile (path : String)
  deriving DecidableEq, Repr

/-- A Python exception escaping a function of the script. -/
inductive PyExc where
  /-- `raise Exception(msg)` from validate_args. -/
  | exception (msg : String)
  /-- An AttributeError (for example calling `.decode` on a `str`). -/
  | attributeError (msg : String)
  /-- A TypeError (for example `None` used where a str or datetime is needed). -/
  | typeError (msg : String)
  /-- A KeyError on a dict lookup. -/
  | keyError (msg : String)
  /-- An exception from `urlretrieve` that is not an `HTTPError` (for
  example `urllib.error.URLError`), which `fetch_nightly` does not catch. -/
  | urlError (msg : String)
  deriving DecidableEq, Repr

/-- The oracle for the external world: the outcome of each external call
the script can make, keyed by that call's distinguishing argument. -/
structure Env where
  /-- Outcome of `urlretrieve` keyed by URL. -/
  http : String → HttpOutcome
  /-- Whether `adb install` of this apk path exits with code 0. -/
  installOk : String → Bool
  /-- Whether `adb uninstall` of this package id exits with code 0. -/
  uninstallOk : String → Bool
  /-- Whether a durations output file exists at this path when read. -/
  fileExists : String → Bool
  /-- Result of `git fetch` keyed by remote name. -/
  gitFetch : String → ProcResult
  /-- Result of `git rev-list --ancestry-path` keyed by the range argument. -/
  revList : String → ProcResult
  /-- Result of `git checkout` keyed by commit hash. -/
  checkout : String → ProcResult
  /-- Result of `./gradlew assemble...` keyed by build type. -/
  assemble : String → ProcResult
  /-- Result of `mv` keyed by the source path. -/
  mv : String → ProcResult

/-- Embedding of `fetch_nightly(download_date, architecture)`.  It forms
the URL from the date alone, attempts the download, catches HTTPError
(printing a message only when the code is 404) and returns None for every
HTTPError; any other download exception propagates. -/
def fetch_nightly (env : Env) (download_date : Int) (architecture : String) :
    List Event × Except PyExc (Option ApkMetadata) :=
  let download_date_string := strftimeYMD download_date
  let nightly_url := NIGHTLY_BASE_URL_format download_date_string
  let filename := "nightly_" ++ replaceDotByUnderscore download_date_string ++ ".apk"
  match env.http nightly_url with
  | .success =>
      ([.httpDownload nightly_url filename],
       .ok (some { name := filename, date := some download_date, commit := "",
                   architecture := architecture }))
  | .httpError code =>
      if code == 404 then
        ([.httpDownload nightly_url filename, .logErr (.apkNotAvailable download_date nightly_url)],
         .ok none)
      else
        ([.httpDownload nightly_url filename], .ok none)
  | .otherError msg =>
      ([.httpDownload nightly_url filename], .error (.urlError msg))

/-- Embedding of `get_date_array_for_range(startdate, enddate)` with dates
as days since the epoch: `delta_dates = (enddate - startdate).days + 1` and
the list `[startdate + timedelta(days=i) for i in range(delta_dates)]`. -/
def get_date_array_for_range (startdate enddate : Int) : List Int :=
  let delta_dates := enddate - startdate + 1
  (List.range delta_dates.toNat).map (fun (i : Nat) => startdate + (i : Int))

/-- The list comprehension `[fetch_nightly(date, architecture) for date in
array_of_dates]`: sequential evaluation, the first uncaught exception
propagates (keeping the events of everything evaluated so far). -/
def download_nightly_loop (env : Env) (architecture : String) :
    List Int → List Event × Except PyExc (List (Option ApkMetadata))
  | [] => ([], .ok [])
  | d :: rest =>
    match fetch_nightly env d architecture with
    | (ev, .error e) => (ev, .error e)
    | (ev, .ok m) =>
      match download_nightly_loop env architecture rest with
      | (ev2, .error e) => (ev ++ ev2, .error e)
      | (ev2, .ok l) => (ev ++ ev2, .ok (m :: l))

/-- Embedding of `download_nightly_for_range(array_of_dates, architecture)`:
run the comprehension, then keep the entries that are not None. -/
def download_nightly_for_range (env : Env) (array_of_dates : List Int)
    (architecture : String) : List Event × Except PyExc (List ApkMetadata) :=
  match download_nightly_loop env architecture array_of_dates with
  | (ev, .error e) => (ev, .error e)
  | (ev, .ok l) => (ev, .ok (l.filterMap id))

example : strftimeYMD 0 = "1970.01.01" := by decide
example : strftimeYMD 18628 = "2021.01.01" := by decide
example : get_date_array_for_range 5 7 = [5, 6, 7] := by decide
example : get_date_array_for_range 5 4 = [] := by decide

/-- Embedding of `install_apk(apk_build_path)`: run `adb install`, print to
stderr and return False on a nonzero exit code, else return True. -/
def install_apk (env : Env) (apk_build_path : String) : List Event × Bool :=
  if env.installOk apk_build_path then
    ([.adbInstall apk_build_path], true)
  else
    ([.adbInstall apk_build_path, .logErr (.unableToInstall apk_build_path)], false)

/-- Embedding of `uninstall_apk(package_id)`: run `adb uninstall`, print to
stderr on a nonzero exit code; the exit code is otherwise ignored. -/
def uninstall_apk (env : Env) (package_id : String) : List Event :=
  if env.uninstallOk package_id then
    [.adbUninstall package_id]
  else
    [.adbUninstall package_id, .logErr (.unableToUninstall package_id)]

/-- Embedding of `run_measure_start_up_script(...)`: one invocation of the
external script; its exit code is not checked. -/
def run_measure_start_up_script (path_to_measure_start_up_script : String)
    (durations_output_path : String) (build_type : String) : List Event :=
  [.runScript path_to_measure_start_up_script build_type durations_output_path]

/-- Embedding of `get_result_from_durations(start_up_durations_path,
analyzed_path)`.  `analyze_durations.detect_filetype` is modelled from the
spec: it raises FileNotFoundError when the file is missing, which the
function catches, printing a message and returning early; otherwise
`read_from`, `to_stats` and `save_output` (modelled from the spec: read the
output file and write aggregated statistics) read the durations file and
write the statistics file. -/
def get_result_from_durations (env : Env) (start_up_durations_path : String)
    (analyzed_path : String) : List Event :=
  if env.fileExists start_up_durations_path then
    [.readDurations start_up_durations_path, .writeStats analyzed_path]
  else
    [.logErr (.fileDoesNotExist start_up_durations_path)]

/-- Embedding of `analyze_nightly_for_one_build(index, package_id,
path_to_measure_start_up_script, apk_metadata, build_type)`: uninstall
(result ignored), install; if the install succeeded, create the output
directory, compute both output paths from the index and the apk name
before its first dot, run the measurement script and read its results. -/
def analyze_nightly_for_one_build (env : Env) (index : Nat) (package_id : String)
    (path_to_measure_start_up_script : String) (apk_metadata : ApkMetadata)
    (build_type : String) : List Event :=
  let uEvents := uninstall_apk env package_id
  match install_apk env apk_metadata.name with
  | (iEvents, true) =>
    let apk_name := splitDotHead apk_metadata.name
    let durations_output_path :=
      os_path_join BACKFILL_DIR (DURATIONS_OUTPUT_FILE_TEMPLATE_format index apk_name)
    let analyzed_durations_path :=
      os_path_join BACKFILL_DIR (ANALYZED_DURATIONS_FILE_TEMPLATE_format index apk_name)
    uEvents ++ iEvents ++ [.mkdirOutput BACKFILL_DIR]
      ++ run_measure_start_up_script path_to_measure_start_up_script durations_output_path build_type
      ++ get_result_from_durations env durations_output_path analyzed_durations_path
  | (iEvents, false) => uEvents ++ iEvents

/-- The `for idx, apk_path in enumerate(array_of_apk_path)` loop of
`run_performance_analysis_on_nightly`, with the running index explicit. -/
def run_perf_go (env : Env) (package_id : String) (script : String) (build_type : String) :
    Nat → List ApkMetadata → List Event
  | _, [] => []
  | idx, apk_path :: rest =>
    analyze_nightly_for_one_build env idx package_id script apk_path build_type
      ++ run_perf_go env package_id script build_type (idx + 1) rest

/-- Embedding of `run_performance_analysis_on_nightly(package_id,
path_to_measure_start_up_script, array_of_apk_path, build_type)`. -/
def run_performance_analysis_on_nightly (env : Env) (package_id : String)
    (path_to_measure_start_up_script : String) (array_of_apk_path : List ApkMetadata)
    (build_type : String) : List Event :=
  run_perf_go env package_id path_to_measure_start_up_script build_type 0 array_of_apk_path

/-- Embedding of `fetch_repository(repository_path, remote_name)`: the
remote defaults to "upstream" when the name is empty; a nonzero exit code
is printed to stderr and otherwise ignored. -/
def fetch_repository (env : Env) (repository_path : String) (remote_name : String) :
    List Event :=
  let remote_repo_name := if remote_name.length == 0 then "upstream" else remote_name
  let fetch_proc := env.gitFetch remote_repo_name
  if fetch_proc.returncode != 0 then
    [.gitFetch remote_repo_name repository_path,
     .logErr (.fetchFailed repository_path fetch_proc.stderr)]
  else
    [.gitFetch remote_repo_name repository_path]

/-- Embedding of `get_all_commits_in_commits_range(start_commit, end_commit,
repository_path)`.  The commits come from the CLI as `Option String`; with
a missing bound, `start_commit + "^.." + end_commit` raises a TypeError
before any subprocess runs.  The subprocess uses `text=True`, so
`commit_proc.stderr` is a `str`; on a nonzero exit code the error-message
formatting calls `.decode` on that `str`, which raises an AttributeError
instead of printing.  On success the stdout is split on newlines and empty
entries are dropped. -/
def get_all_commits_in_commits_range (env : Env) (start_commit end_commit : Option String)
    (repository_path : String) : List Event × Except PyExc (List String) :=
  match start_commit, end_commit with
  | some sc, some ec =>
    let range := sc ++ "^.." ++ ec
    let commit_proc := env.revList range
    if commit_proc.returncode != 0 then
      ([.gitRevList range], .error (.attributeError "str object has no attribute decode"))
    else
      ([.gitRevList range],
       .ok (((commit_proc.stdout.data.splitOn '\n').map String.mk).filter (fun e => !e.isEmpty)))
  | _, _ => ([], .error (.typeError "can only concatenate str (not NoneType) to str"))

/-- Embedding of `build_apk_for_commit(hash, repository_path, build_type)`:
checkout (on failure print and return early), then gradle assemble (on
failure print; the source interpolates the stderr of the checkout process
into this message). -/
def build_apk_for_commit (env : Env) (hash : String) (repository_path : String)
    (build_type : String) : List Event :=
  let checkout_proc := env.checkout hash
  if checkout_proc.returncode != 0 then
    [.gitCheckout hash, .logErr (.checkoutFailed hash checkout_proc.stderr)]
  else
    let assemble_proc := env.assemble build_type
    if assemble_proc.returncode != 0 then
      [.gitCheckout hash, .gradleAssemble build_type,
       .logErr (.assembleFailed build_type checkout_proc.stderr)]
    else
      [.gitCheckout hash, .gradleAssemble build_type]

/-- Embedding of `build_apk_path_string(repository_path, build_type,
phone_architecture)`. -/
def build_apk_path_string (repository_path : String) (build_type : String)
    (phone_architecture : String) : String :=
  let apk_name := "app-" ++ phone_architecture ++ "-" ++ build_type ++ ".apk"
  repository_path ++ "/app/build/outputs/apk/" ++ build_type ++ "/" ++ apk_name

/-- Embedding of `move_apk_to_cwd(apk_path, commit_hash)`.  The `mv`
subprocess is run without capturing output, so `proc.stderr` is None; on a
nonzero exit code the error-message formatting calls `.decode` on None,
raising an AttributeError. -/
def move_apk_to_cwd (env : Env) (apk_path : String) (commit_hash : String) :
    List Event × Except PyExc String :=
  let new_apk_name := "apk_commit_" ++ commit_hash ++ ".apk"
  let proc := env.mv apk_path
  if proc.returncode != 0 then
    ([.mvFile apk_path new_apk_name],
     .error (.attributeError "NoneType object has no attribute decode"))
  else
    ([.mvFile apk_path new_apk_name], .ok new_apk_name)

/-- The `for commit in array_of_commit_hash` loop of
`build_apks_for_commits`, accumulating descriptors. -/
def build_apks_loop (env : Env) (repository_path : String) (build_type : String)
    (architecture : String) : List String → List Event × Except PyExc (List ApkMetadata)
  | [] => ([], .ok [])
  | commit :: rest =>
    let buildEvents := build_apk_for_commit env commit repository_path build_type
    let built_apk_name := build_apk_path_string repository_path build_type architecture
    match move_apk_to_cwd env built_apk_name commit with
    | (mvEvents, .error e) => (buildEvents ++ mvEvents, .error e)
    | (mvEvents, .ok new_apk_name) =>
      match build_apks_loop env repository_path build_type architecture rest with
      | (restEvents, .error e) => (buildEvents ++ mvEvents ++ restEvents, .error e)
      | (restEvents, .ok l) =>
        (buildEvents ++ mvEvents ++ restEvents,
         .ok ({ name := new_apk_name, date := none, commit := commit,
                architecture := architecture } :: l))

/-- Embedding of `build_apks_for_commits(start_commit, end_commit,
repository_path, build_type, architecture, remote_name)`. -/
def build_apks_for_commits (env : Env) (start_commit end_commit : Option String)
    (repository_path : String) (build_type : String) (architecture : String)
    (remote_name : String) : List Event × Except PyExc (List ApkMetadata) :=
  let fetchEvents := fetch_repository env repository_path remote_name
  match get_all_commits_in_commits_range env start_commit end_commit repository_path with
  | (ev, .error e) => (fetchEvents ++ ev, .error e)
  | (ev, .ok commits) =>
    match build_apks_loop env repository_path build_type architecture commits with
    | (loopEvents, res) => (fetchEvents ++ ev ++ loopEvents, res)

/-- Embedding of `cleanup(array_of_apk_path)`: remove each artifact file. -/
def cleanup (array_of_apk_path : List ApkMetadata) : List Event :=
  array_of_apk_path.map (fun i => .rmFile i.name)

/-- The parsed CLI arguments.  `startdate`, the commits, the remote name and
the repository path are optional flags; `enddate` defaults to the current
date, so it always has a value. -/
structure Args where
  release_channel : String
  architecture : String
  build_source : String
  startdate : Option Int
  enddate : Int
  startcommit : Option String
  endcommit : Option String
  git_remote_name : Option String
  repository_to_test_path : Option String
  cleanup : Bool
  deriving DecidableEq, Repr

/-- Python truthiness test `not x` for an optional string: true when the
value is missing or the empty string. -/
def falsy : Option String → Bool
  | none => true
  | some s => s.isEmpty

/-- Embedding of `validate_args(args)`: raise when commit mode has no
repository path, or when commit mode has neither a start nor an end
commit. -/
def validate_args (args : Args) : Except PyExc Unit :=
  if args.build_source == BUILD_SRC_COMMITS && args.repository_to_test_path.isNone then
    .error (.exception
      "Provide the path to your fenix repository to run this script with the commits option")
  else if args.build_source == BUILD_SRC_COMMITS
      && falsy args.startcommit && falsy args.endcommit then
    .error (.exception
      "Running backfill with commits between two commits requires a start and end commit")
  else
    .ok ()

/-- Embedding of `main()` after argument parsing: validate (an exception
here aborts with no external action), acquire the build descriptors from
the selected source, run the measurement loop, then optionally clean up.
In nightly mode a missing `--startdate` makes the date subtraction raise a
TypeError. -/
def main (env : Env) (args : Args) : List Event × Except PyExc Unit :=
  match validate_args args with
  | .error e => ([], .error e)
  | .ok _ =>
    let acquired : List Event × Except PyExc (List ApkMetadata) :=
      if args.build_source == BUILD_SRC_TASKCLUSTER then
        match args.startdate with
        | none =>
          ([], .error (.typeError "unsupported operand type for minus: datetime and NoneType"))
        | some s =>
          download_nightly_for_range env (get_date_array_for_range s args.enddate)
            args.architecture
      else
        build_apks_for_commits env args.startcommit args.endcommit
          (args.repository_to_test_path.getD "") args.release_channel args.architecture
          (args.git_remote_name.getD "")
    match acquired with
    | (ev, .error e) => (ev, .error e)
    | (ev, .ok array_of_apk_metadata) =>
      match FENIX_CHANNEL_TO_PKG args.release_channel with
      | none => (ev, .error (.keyError args.release_channel))
      | some package_id =>
        let perfEvents := run_performance_analysis_on_nightly env package_id
          MEASURE_START_UP_SCRIPT array_of_apk_metadata args.release_channel
        let cleanupEvents := if args.cleanup then cleanup array_of_apk_metadata else []
        (ev ++ perfEvents ++ cleanupEvents, .ok ())

/-- A concrete environment where every external call succeeds. -/
def envAllOk : Env where
  http := fun _ => .success
  installOk := fun _ => true
  uninstallOk := fun _ => true
  fileExists := fun _ => true
  gitFetch := fun _ => ⟨0, "", ""⟩
  revList := fun _ => ⟨0, "", ""⟩
  checkout := fun _ => ⟨0, "", ""⟩
  assemble := fun _ => ⟨0, "", ""⟩
  mv := fun _ => ⟨0, "", ""⟩

/-- A concrete environment where every HTTP download responds 404 and all
other external calls succeed. -/
def env404 : Env := { envAllOk with http := fun _ => .httpError 404 }

/-- A concrete environment where every HTTP download responds 503 and all
other external calls succeed. -/
def env503 : Env := { envAllOk with http := fun _ => .httpError 503 }

/-- C1: for startdate ≤ enddate, get_date_array_for_range returns exactly
the days from startdate to enddate inclusive (membership), and consecutive
entries are exactly one day apart (so the list is increasing). -/
theorem C1_date_range_inclusive_contiguous (startdate enddate : Int)
    (h : startdate ≤ enddate) :
    (∀ d : Int, d ∈ get_date_array_for_range startdate enddate ↔
        startdate ≤ d ∧ d ≤ enddate)
    ∧ ∀ i (hi : i + 1 < (get_date_array_for_range startdate enddate).length),
        (get_date_array_for_range startdate enddate).get ⟨i + 1, hi⟩
          = (get_date_array_for_range startdate enddate).get ⟨i, Nat.lt_of_succ_lt hi⟩ + 1 := by
  constructor
  · intro d
    simp only [get_date_array_for_range, List.mem_map, List.mem_range]
    constructor
    · rintro ⟨i, hi, rfl⟩
      omega
    · rintro ⟨h1, h2⟩
      exact ⟨(d - startdate).toNat, by omega, by omega⟩
  · intro i hi
    simp only [get_date_array_for_range, List.get_eq_getElem, List.getElem_map,
      List.getElem_range]
    omega

/-- Witness for C1 at startdate 0, enddate 2, day 1. -/
theorem C1_witness :
    ((0 : Int) ≤ 2)
    ∧ ((1 : Int) ∈ get_date_array_for_range 0 2 ↔ (0 : Int) ≤ 1 ∧ (1 : Int) ≤ 2) :=
  ⟨by decide, (C1_date_range_inclusive_contiguous 0 2 (by decide)).1 1⟩

/-- C10: with enddate strictly before startdate, the date list is empty, so
nightly mode downloads nothing and the measurement loop over the resulting
empty descriptor list does nothing. -/
theorem C10_reversed_range_is_empty (env : Env)
    (architecture package_id script build_type : String)
    (startdate enddate : Int) (h : enddate < startdate) :
    get_date_array_for_range startdate enddate = []
    ∧ download_nightly_for_range env (get_date_array_for_range startdate enddate) architecture
        = ([], .ok [])
    ∧ run_performance_analysis_on_nightly env package_id script [] build_type = [] := by
  have he : get_date_array_for_range startdate enddate = [] := by
    simp only [get_date_array_for_range]
    have h0 : (enddate - startdate + 1).toNat = 0 := by omega
    rw [h0]
    rfl
  refine ⟨he, ?_, rfl⟩
  rw [he]
  rfl

/-- Witness for C10 at startdate 1, enddate 0. -/
theorem C10_witness :
    ((0 : Int) < 1)
    ∧ (get_date_array_for_range 1 0 = []
       ∧ download_nightly_for_range envAllOk (get_date_array_for_range 1 0) "armeabi-v7a"
           = ([], .ok [])
       ∧ run_performance_analysis_on_nightly envAllOk "org.mozilla.fenix"
           MEASURE_START_UP_SCRIPT [] "nightly" = []) :=
  ⟨by decide,
   C10_reversed_range_is_empty envAllOk "armeabi-v7a" "org.mozilla.fenix"
     MEASURE_START_UP_SCRIPT "nightly" 1 0 (by decide)⟩

/-- If fetching a date yields None, inserting that date anywhere in the
list changes neither the error status nor the filtered descriptor list of
the download comprehension. -/
theorem download_loop_skip_none (env : Env) (architecture : String) (d : Int)
    (hnone : (fetch_nightly env d architecture).2 = .ok none)
    (pre post : List Int) :
    ((download_nightly_loop env architecture (pre ++ d :: post)).2).map (List.filterMap id)
      = ((download_nightly_loop env architecture (pre ++ post)).2).map (List.filterMap id) := by
  induction pre with
  | nil =>
    simp only [List.nil_append]
    rcases hF : fetch_nightly env d architecture with ⟨ev, r⟩
    rw [hF] at hnone
    simp only at hnone
    subst hnone
    simp only [download_nightly_loop, hF]
    rcases hL : download_nightly_loop env architecture post with ⟨ev2, r2⟩
    cases r2 <;> simp [Except.map, List.filterMap_cons]
  | cons p pre ih =>
    simp only [List.cons_append, download_nightly_loop]
    rcases hP : fetch_nightly env p architecture with ⟨evp, rp⟩
    cases rp with
    | error e => simp
    | ok m =>
      rcases hL1 : download_nightly_loop env architecture (pre ++ d :: post) with ⟨e1, r1⟩
      rcases hL2 : download_nightly_loop env architecture (pre ++ post) with ⟨e2, r2⟩
      rw [hL1, hL2] at ih
      cases r1 with
      | error e1v =>
        cases r2 with
        | error e2v => simp_all [Except.map]
        | ok l2 => simp_all [Except.map]
      | ok l1 =>
        cases r2 with
        | error e2v => simp_all [Except.map]
        | ok l2 =>
          simp only [Except.map] at ih ⊢
          cases m <;> simp_all [List.filterMap_cons]

/-- C2: a 404 response for a date makes fetch_nightly return None without
raising, and download_nightly_for_range produces the same outcome (same
descriptor list, same error status) as if that date were absent: the date
is omitted and the remaining dates are still processed. -/
theorem C2_404_yields_no_descriptor (env : Env) (architecture : String) (d : Int)
    (pre post : List Int)
    (h404 : env.http (NIGHTLY_BASE_URL_format (strftimeYMD d)) = .httpError 404) :
    (fetch_nightly env d architecture).2 = .ok none
    ∧ (download_nightly_for_range env (pre ++ d :: post) architecture).2
        = (download_nightly_for_range env (pre ++ post) architecture).2 := by
  have hnone : (fetch_nightly env d architecture).2 = .ok none := by
    simp [fetch_nightly, h404]
  refine ⟨hnone, ?_⟩
  have hskip := download_loop_skip_none env architecture d hnone pre post
  simp only [download_nightly_for_range]
  rcases h1 : download_nightly_loop env architecture (pre ++ d :: post) with ⟨e1, r1⟩
  rcases h2 : download_nightly_loop env architecture (pre ++ post) with ⟨e2, r2⟩
  rw [h1, h2] at hskip
  cases r1 <;> cases r2 <;> simp_all [Except.map]

/-- Witness for C2: an environment answering 404 everywhere, date 0
inserted before date 1. -/
theorem C2_witness :
    env404.http (NIGHTLY_BASE_URL_format (strftimeYMD 0)) = .httpError 404
    ∧ ((fetch_nightly env404 0 "armeabi-v7a").2 = .ok none
       ∧ (download_nightly_for_range env404 ([] ++ 0 :: [1]) "armeabi-v7a").2
           = (download_nightly_for_range env404 ([] ++ [1]) "armeabi-v7a").2) :=
  ⟨rfl, C2_404_yields_no_descriptor env404 "armeabi-v7a" 0 [] [1] rfl⟩

/-- C3 counterexample: with an HTTP 503 response, fetch_nightly returns
None (the date is skipped) and performs no stderr logging at all — the
failure neither propagates nor is reported, contradicting the claim that
every non-404 download failure propagates as a reported error. -/
theorem C3_counterexample_503_silently_skipped :
    (fetch_nightly env503 0 "armeabi-v7a").2 = .ok none
    ∧ (fetch_nightly env503 0 "armeabi-v7a").1
        = [.httpDownload (NIGHTLY_BASE_URL_format (strftimeYMD 0))
             ("nightly_" ++ replaceDotByUnderscore (strftimeYMD 0) ++ ".apk")] :=
  ⟨rfl, rfl⟩

/-- C3 amended: every HTTPError response (404 or not) is treated as "no
artifact for that day" and skipped — the 404 case with a stderr message,
any other HTTP status code silently; only a download failure that is not
an HTTP error response propagates as an exception. -/
theorem C3_amended_only_http_errors_skipped (env : Env) (download_date : Int)
    (architecture : String) :
    (∀ code, env.http (NIGHTLY_BASE_URL_format (strftimeYMD download_date)) = .httpError code →
        (fetch_nightly env download_date architecture).2 = .ok none)
    ∧ (env.http (NIGHTLY_BASE_URL_format (strftimeYMD download_date)) = .httpError 404 →
        (fetch_nightly env download_date architecture).1
          = [.httpDownload (NIGHTLY_BASE_URL_format (strftimeYMD download_date))
               ("nightly_" ++ replaceDotByUnderscore (strftimeYMD download_date) ++ ".apk"),
             .logErr (.apkNotAvailable download_date
               (NIGHTLY_BASE_URL_format (strftimeYMD download_date)))])
    ∧ (∀ code, code ≠ 404 →
        env.http (NIGHTLY_BASE_URL_format (strftimeYMD download_date)) = .httpError code →
        (fetch_nightly env download_date architecture).1
          = [.httpDownload (NIGHTLY_BASE_URL_format (strftimeYMD download_date))
               ("nightly_" ++ replaceDotByUnderscore (strftimeYMD download_date) ++ ".apk")])
    ∧ (∀ msg, env.http (NIGHTLY_BASE_URL_format (strftimeYMD download_date)) = .otherError msg →
        (fetch_nightly env download_date architecture).2 = .error (.urlError msg)) := by
  refine ⟨?_, ?_, ?_, ?_⟩
  · intro code hc
    by_cases h4 : code = 404 <;> simp [fetch_nightly, hc, h4]
  · intro hc
    simp [fetch_nightly, hc]
  · intro code hne hc
    simp [fetch_nightly, hc, hne]
  · intro msg hc
    simp [fetch_nightly, hc]

/-- Witness for the amended C3 at a 503 environment. -/
theorem C3_amended_witness :
    env503.http (NIGHTLY_BASE_URL_format (strftimeYMD 0)) = .httpError 503
    ∧ (fetch_nightly env503 0 "armeabi-v7a").2 = .ok none
    ∧ (fetch_nightly env503 0 "armeabi-v7a").1
        = [.httpDownload (NIGHTLY_BASE_URL_format (strftimeYMD 0))
             ("nightly_" ++ replaceDotByUnderscore (strftimeYMD 0) ++ ".apk")] :=
  ⟨rfl, (C3_amended_only_http_errors_skipped env503 0 "armeabi-v7a").1 503 rfl,
   (C3_amended_only_http_errors_skipped env503 0 "armeabi-v7a").2.2.1 503 (by decide) rfl⟩

/-- Appending strings concatenates their character lists. -/
theorem string_data_append (a b : String) : (a ++ b).data = a.data ++ b.data := by
  cases a
  cases b
  rfl

/-- C9: the events of fetch_nightly (hence the requested URL) do not depend
on the architecture argument; the first event is always the download of the
URL built from the date alone; that URL names the armeabi-v7a artifact; and
the architecture argument is only copied into the returned descriptor. -/
theorem C9_url_independent_of_architecture (env : Env) (download_date : Int)
    (a₁ a₂ : String) :
    (fetch_nightly env download_date a₁).1 = (fetch_nightly env download_date a₂).1
    ∧ ((fetch_nightly env download_date a₁).1).head?
        = some (.httpDownload (NIGHTLY_BASE_URL_format (strftimeYMD download_date))
            ("nightly_" ++ replaceDotByUnderscore (strftimeYMD download_date) ++ ".apk"))
    ∧ "armeabi-v7a".data <:+: (NIGHTLY_BASE_URL_format (strftimeYMD download_date)).data
    ∧ (env.http (NIGHTLY_BASE_URL_format (strftimeYMD download_date)) = .success →
        (fetch_nightly env download_date a₁).2
          = .ok (some { name := "nightly_" ++ replaceDotByUnderscore (strftimeYMD download_date)
                          ++ ".apk",
                        date := some download_date, commit := "", architecture := a₁ })) := by
  refine ⟨?_, ?_, ?_, ?_⟩
  · simp only [fetch_nightly]
    cases env.http (NIGHTLY_BASE_URL_format (strftimeYMD download_date)) <;> simp
  · simp only [fetch_nightly]
    cases env.http (NIGHTLY_BASE_URL_format (strftimeYMD download_date)) <;> simp
    split <;> simp
  · have h1 : ("armeabi-v7a".data) <:+: NIGHTLY_URL_SUFFIX.data := by decide
    have h2 : NIGHTLY_URL_SUFFIX.data
        <:+ (NIGHTLY_URL_PREFIX ++ strftimeYMD download_date).data ++ NIGHTLY_URL_SUFFIX.data :=
      List.suffix_append _ _
    have h3 : (NIGHTLY_BASE_URL_format (strftimeYMD download_date)).data
        = (NIGHTLY_URL_PREFIX ++ strftimeYMD download_date).data ++ NIGHTLY_URL_SUFFIX.data := by
      simp only [NIGHTLY_BASE_URL_format]
      rw [string_data_append]
    rw [h3]
    exact h1.trans h2.isInfix
  · intro h
    simp [fetch_nightly, h]

/-- Witness for C9 at date 0 with both architecture choices. -/
theorem C9_witness :
    envAllOk.http (NIGHTLY_BASE_URL_format (strftimeYMD 0)) = .success
    ∧ (fetch_nightly envAllOk 0 "armeabi-v7a").1 = (fetch_nightly envAllOk 0 "arm64-v8a").1
    ∧ (fetch_nightly envAllOk 0 "armeabi-v7a").2
        = .ok (some { name := "nightly_" ++ replaceDotByUnderscore (strftimeYMD 0) ++ ".apk",
                      date := some 0, commit := "", architecture := "armeabi-v7a" }) :=
  ⟨rfl, (C9_url_independent_of_architecture envAllOk 0 "armeabi-v7a" "arm64-v8a").1,
   (C9_url_independent_of_architecture envAllOk 0 "armeabi-v7a" "arm64-v8a").2.2.2 rfl⟩

/-- Splitting the measurement loop around one build: the loop processes the
prefix, then the distinguished build at its index, then every remaining
build at the following indices. -/
theorem run_perf_go_append (env : Env) (package_id script build_type : String)
    (idx : Nat) (pre post : List ApkMetadata) (m : ApkMetadata) :
    run_perf_go env package_id script build_type idx (pre ++ m :: post)
      = run_perf_go env package_id script build_type idx pre
        ++ analyze_nightly_for_one_build env (idx + pre.length) package_id script m build_type
        ++ run_perf_go env package_id script build_type (idx + pre.length + 1) post := by
  induction pre generalizing idx with
  | nil => simp [run_perf_go]
  | cons p pre ih =>
    show analyze_nightly_for_one_build env idx package_id script p build_type
        ++ run_perf_go env package_id script build_type (idx + 1) (pre ++ m :: post)
      = run_perf_go env package_id script build_type idx (p :: pre)
        ++ analyze_nightly_for_one_build env (idx + (p :: pre).length) package_id script m
            build_type
        ++ run_perf_go env package_id script build_type (idx + (p :: pre).length + 1) post
    rw [ih (idx + 1)]
    have h1 : idx + (p :: pre).length = idx + 1 + pre.length := by
      simp only [List.length_cons]
      omega
    rw [h1]
    show _ = (analyze_nightly_for_one_build env idx package_id script p build_type
        ++ run_perf_go env package_id script build_type (idx + 1) pre)
        ++ analyze_nightly_for_one_build env (idx + 1 + pre.length) package_id script m build_type
        ++ run_perf_go env package_id script build_type (idx + 1 + pre.length + 1) post
    simp [List.append_assoc]

/-- C5: what follows the uninstall step never depends on the uninstall
outcome; when the install fails, the per-build trace is exactly the
uninstall events followed by the failed install and its stderr message —
no measurement-script invocation and no statistics write — and the loop
still processes every subsequent build at its index. -/
theorem C5_install_failure_only_skips_that_build (env : Env) (idx : Nat)
    (package_id script build_type : String) (m : ApkMetadata)
    (pre post : List ApkMetadata) :
    (∀ u : String → Bool,
        List.drop (uninstall_apk { env with uninstallOk := u } package_id).length
          (analyze_nightly_for_one_build { env with uninstallOk := u } idx package_id script m
            build_type)
          = List.drop (uninstall_apk env package_id).length
              (analyze_nightly_for_one_build env idx package_id script m build_type))
    ∧ (env.installOk m.name = false →
        analyze_nightly_for_one_build env idx package_id script m build_type
          = uninstall_apk env package_id
            ++ [.adbInstall m.name, .logErr (.unableToInstall m.name)]
        ∧ (∀ s b p, Event.runScript s b p
             ∉ analyze_nightly_for_one_build env idx package_id script m build_type)
        ∧ (∀ p, Event.writeStats p
             ∉ analyze_nightly_for_one_build env idx package_id script m build_type))
    ∧ run_perf_go env package_id script build_type idx (pre ++ m :: post)
        = run_perf_go env package_id script build_type idx pre
          ++ analyze_nightly_for_one_build env (idx + pre.length) package_id script m build_type
          ++ run_perf_go env package_id script build_type (idx + pre.length + 1) post := by
  refine ⟨?_, ?_, run_perf_go_append env package_id script build_type idx pre post m⟩
  · intro u
    by_cases hI : env.installOk m.name <;>
      simp [analyze_nightly_for_one_build, install_apk, hI, get_result_from_durations,
        List.append_assoc, List.drop_left]
  · intro hfail
    refine ⟨?_, ?_, ?_⟩
    · simp [analyze_nightly_for_one_build, install_apk, hfail]
    · intro s b p
      by_cases hU : env.uninstallOk package_id <;>
        simp [analyze_nightly_for_one_build, install_apk, hfail, uninstall_apk, hU]
    · intro p
      by_cases hU : env.uninstallOk package_id <;>
        simp [analyze_nightly_for_one_build, install_apk, hfail, uninstall_apk, hU]

/-- A concrete environment where `adb install` always fails and every other
external call succeeds. -/
def envInstallFail : Env := { envAllOk with installOk := fun _ => false }

/-- Witness for C5: a failing install at index 0. -/
theorem C5_witness :
    envInstallFail.installOk "x.apk" = false
    ∧ analyze_nightly_for_one_build envInstallFail 0 "org.mozilla.fenix"
        MEASURE_START_UP_SCRIPT ⟨"x.apk", none, "", "armeabi-v7a"⟩ "nightly"
        = uninstall_apk envInstallFail "org.mozilla.fenix"
          ++ [.adbInstall "x.apk", .logErr (.unableToInstall "x.apk")] :=
  ⟨rfl,
   ((C5_install_failure_only_skips_that_build envInstallFail 0 "org.mozilla.fenix"
       MEASURE_START_UP_SCRIPT "nightly" ⟨"x.apk", none, "", "armeabi-v7a"⟩ [] []).2.1 rfl).1⟩

/-- C6: when the durations output file is missing, get_result_from_durations
only logs the condition (no statistics write anywhere in the build trace),
and the loop still processes every subsequent build at its index. -/
theorem C6_missing_durations_file_skipped (env : Env) (idx : Nat)
    (package_id script build_type : String) (m : ApkMetadata)
    (pre post : List ApkMetadata)
    (hmiss : env.fileExists
        (os_path_join BACKFILL_DIR
          (DURATIONS_OUTPUT_FILE_TEMPLATE_format idx (splitDotHead m.name))) = false) :
    get_result_from_durations env
        (os_path_join BACKFILL_DIR
          (DURATIONS_OUTPUT_FILE_TEMPLATE_format idx (splitDotHead m.name)))
        (os_path_join BACKFILL_DIR
          (ANALYZED_DURATIONS_FILE_TEMPLATE_format idx (splitDotHead m.name)))
      = [.logErr (.fileDoesNotExist
          (os_path_join BACKFILL_DIR
            (DURATIONS_OUTPUT_FILE_TEMPLATE_format idx (splitDotHead m.name))))]
    ∧ (∀ p, Event.writeStats p
         ∉ analyze_nightly_for_one_build env idx package_id script m build_type)
    ∧ run_perf_go env package_id script build_type idx (pre ++ m :: post)
        = run_perf_go env package_id script build_type idx pre
          ++ analyze_nightly_for_one_build env (idx + pre.length) package_id script m build_type
          ++ run_perf_go env package_id script build_type (idx + pre.length + 1) post := by
  refine ⟨by simp [get_result_from_durations, hmiss], ?_,
    run_perf_go_append env package_id script build_type idx pre post m⟩
  intro p
  by_cases hI : env.installOk m.name <;> by_cases hU : env.uninstallOk package_id <;>
    simp [analyze_nightly_for_one_build, install_apk, get_result_from_durations,
      uninstall_apk, run_measure_start_up_script, hI, hU, hmiss]

/-- A concrete environment where the durations output file never exists and
every other external call succeeds. -/
def envNoFile : Env := { envAllOk with fileExists := fun _ => false }

/-- Witness for C6 at index 0 with one subsequent build. -/
theorem C6_witness :
    envNoFile.fileExists
        (os_path_join BACKFILL_DIR (DURATIONS_OUTPUT_FILE_TEMPLATE_format 0 (splitDotHead "x.apk")))
      = false
    ∧ get_result_from_durations envNoFile
        (os_path_join BACKFILL_DIR (DURATIONS_OUTPUT_FILE_TEMPLATE_format 0 (splitDotHead "x.apk")))
        (os_path_join BACKFILL_DIR (ANALYZED_DURATIONS_FILE_TEMPLATE_format 0 (splitDotHead "x.apk")))
        = [.logErr (.fileDoesNotExist
            (os_path_join BACKFILL_DIR
              (DURATIONS_OUTPUT_FILE_TEMPLATE_format 0 (splitDotHead "x.apk"))))] :=
  ⟨rfl,
   (C6_missing_durations_file_skipped envNoFile 0 "org.mozilla.fenix"
      MEASURE_START_UP_SCRIPT "nightly" ⟨"x.apk", none, "", "armeabi-v7a"⟩ [] [] rfl).1⟩

/-- The durations output path written out as one literal-prefixed string. -/
theorem durations_path_eq (idx : Nat) (b : String) :
    os_path_join BACKFILL_DIR (DURATIONS_OUTPUT_FILE_TEMPLATE_format idx b)
      = "backfill_output/" ++ toString idx ++ "_durations_for_" ++ b ++ ".txt" := by
  have hlit : ("backfill_output" : String) ++ "/" = "backfill_output/" := rfl
  simp only [os_path_join, BACKFILL_DIR, DURATIONS_OUTPUT_FILE_TEMPLATE_format,
    ← String.append_assoc, hlit]

/-- The analyzed-statistics output path written out as one literal-prefixed
string. -/
theorem analyzed_path_eq (idx : Nat) (b : String) :
    os_path_join BACKFILL_DIR (ANALYZED_DURATIONS_FILE_TEMPLATE_format idx b)
      = "backfill_output/" ++ toString idx ++ "_" ++ b ++ "_perf_results.txt" := by
  have hlit : ("backfill_output" : String) ++ "/" = "backfill_output/" := rfl
  simp only [os_path_join, BACKFILL_DIR, ANALYZED_DURATIONS_FILE_TEMPLATE_format,
    ← String.append_assoc, hlit]

/-- C8: for a successfully installed build at loop index i with artifact
name N, the measurement script is invoked with the durations path
backfill_output/i_durations_for_B.txt and, when that file exists, the
statistics file backfill_output/i_B_perf_results.txt is written, where B is
the portion of N before its first dot; the directory is the fixed
BACKFILL_DIR = "backfill_output". -/
theorem C8_output_paths_fixed_directory (env : Env) (idx : Nat)
    (package_id script build_type : String) (m : ApkMetadata)
    (hinstall : env.installOk m.name = true) :
    BACKFILL_DIR = "backfill_output"
    ∧ Event.runScript script build_type
        ("backfill_output/" ++ toString idx ++ "_durations_for_" ++ splitDotHead m.name ++ ".txt")
        ∈ analyze_nightly_for_one_build env idx package_id script m build_type
    ∧ (env.fileExists
          ("backfill_output/" ++ toString idx ++ "_durations_for_" ++ splitDotHead m.name
            ++ ".txt") = true →
        Event.writeStats
          ("backfill_output/" ++ toString idx ++ "_" ++ splitDotHead m.name
            ++ "_perf_results.txt")
          ∈ analyze_nightly_for_one_build env idx package_id script m build_type) := by
  refine ⟨rfl, ?_, ?_⟩
  · by_cases hU : env.uninstallOk package_id <;>
      simp [analyze_nightly_for_one_build, install_apk, hinstall, uninstall_apk, hU,
        run_measure_start_up_script, get_result_from_durations, durations_path_eq]
  · intro hfile
    by_cases hU : env.uninstallOk package_id <;>
      simp [analyze_nightly_for_one_build, install_apk, hinstall, uninstall_apk, hU,
        run_measure_start_up_script, get_result_from_durations, hfile,
        durations_path_eq, analyzed_path_eq]

/-- Witness for C8 at index 0 with a nightly artifact name. -/
theorem C8_witness :
    envAllOk.installOk "nightly_2021_01_01.apk" = true
    ∧ Event.runScript MEASURE_START_UP_SCRIPT "nightly"
        ("backfill_output/" ++ toString 0 ++ "_durations_for_"
          ++ splitDotHead "nightly_2021_01_01.apk" ++ ".txt")
        ∈ analyze_nightly_for_one_build envAllOk 0 "org.mozilla.fenix"
            MEASURE_START_UP_SCRIPT ⟨"nightly_2021_01_01.apk", none, "", "armeabi-v7a"⟩
            "nightly" :=
  ⟨rfl,
   (C8_output_paths_fixed_directory envAllOk 0 "org.mozilla.fenix" MEASURE_START_UP_SCRIPT
      "nightly" ⟨"nightly_2021_01_01.apk", none, "", "armeabi-v7a"⟩ rfl).2.1⟩

/-- Raising in validate_args is equivalent to: commit mode with either a
missing repository path or both commit bounds missing (empty counts as
missing for the commits, but not for the path). -/
theorem validate_args_error_iff (args : Args) :
    (∃ e, validate_args args = .error e) ↔
      (args.build_source = BUILD_SRC_COMMITS
        ∧ (args.repository_to_test_path = none
           ∨ (falsy args.startcommit = true ∧ falsy args.endcommit = true))) := by
  unfold validate_args
  split_ifs with h1 h2
  · simp only [Bool.and_eq_true, beq_iff_eq, Option.isNone_iff_eq_none] at h1
    simp [h1.1, h1.2]
  · simp only [Bool.and_eq_true, beq_iff_eq] at h2
    simp [h2.1.1, h2.1.2, h2.2]
  · simp only [Bool.and_eq_true, beq_iff_eq, Option.isNone_iff_eq_none, not_and, not_or] at h1 h2
    constructor
    · rintro ⟨e, he⟩
      exact he.elim
    · rintro ⟨hb, hor⟩
      rcases hor with hr | ⟨hs, he⟩
      · exact absurd hr (h1 hb)
      · exact absurd he (h2 ⟨hb, hs⟩)

/-- C4 amended: main raises a validation error, before any external action,
exactly in commit mode with the repository path missing or with BOTH commit
bounds missing; in every other argument combination validate_args raises
nothing (a missing start commit alone, or a missing end commit alone, is
accepted). -/
theorem C4_amended_validation (env : Env) (args : Args) :
    (args.build_source = BUILD_SRC_COMMITS →
      (args.repository_to_test_path = none
        ∨ (falsy args.startcommit = true ∧ falsy args.endcommit = true)) →
      ∃ e, validate_args args = .error e ∧ main env args = ([], .error e))
    ∧ (¬ (args.build_source = BUILD_SRC_COMMITS
          ∧ (args.repository_to_test_path = none
             ∨ (falsy args.startcommit = true ∧ falsy args.endcommit = true))) →
      validate_args args = .ok ()) := by
  constructor
  · intro hb hmiss
    obtain ⟨e, he⟩ := (validate_args_error_iff args).2 ⟨hb, hmiss⟩
    exact ⟨e, he, by simp [main, he]⟩
  · intro hnot
    rcases hv : validate_args args with e | u
    · exact absurd ((validate_args_error_iff args).1 ⟨e, hv⟩) hnot
    · rfl

/-- Arguments in commit mode with a repository path and an end commit but
no start commit. -/
def argsMissingStart : Args where
  release_channel := "nightly"
  architecture := "armeabi-v7a"
  build_source := "commitsRange"
  startdate := none
  enddate := 0
  startcommit := none
  endcommit := some "abcdef"
  git_remote_name := none
  repository_to_test_path := some "/repo"
  cleanup := false

/-- C4 counterexample: in commit mode with the start commit missing but an
end commit present, validate_args raises nothing, and main goes on to
perform a network action (the git fetch), contradicting the claim that a
missing start commit raises a validation error before any action. -/
theorem C4_counterexample_missing_start_commit_accepted :
    validate_args argsMissingStart = .ok ()
    ∧ (main envAllOk argsMissingStart).1.head? = some (.gitFetch "upstream" "/repo") :=
  ⟨rfl, rfl⟩

/-- The same arguments with the repository path also removed. -/
def argsNoRepo : Args := { argsMissingStart with repository_to_test_path := none }

/-- Witness for the amended C4: commit mode with no repository path raises
before any action, while commit mode with only the start commit missing is
accepted. -/
theorem C4_amended_witness :
    (argsNoRepo.build_source = BUILD_SRC_COMMITS ∧ argsNoRepo.repository_to_test_path = none)
    ∧ (∃ e, validate_args argsNoRepo = .error e
         ∧ main envAllOk argsNoRepo = ([], .error e))
    ∧ validate_args argsMissingStart = .ok () :=
  ⟨⟨rfl, rfl⟩,
   (C4_amended_validation envAllOk argsNoRepo).1 rfl (Or.inl rfl),
   (C4_amended_validation envAllOk argsMissingStart).2
     (by
      rintro ⟨hb, hor⟩
      rcases hor with hr | ⟨hs, he⟩
      · exact Option.noConfusion hr
      · exact Bool.noConfusion he)⟩

/-- A concrete environment where `git rev-list` exits nonzero and every
other external call succeeds. -/
def envRevListFail : Env :=
  { envAllOk with revList := fun _ => ⟨128, "", "fatal: Invalid revision range"⟩ }

/-- C7: the commit path does not survive a rev-list failure. With a nonzero
rev-list exit code, get_all_commits_in_commits_range raises an
AttributeError while formatting its own error message (the captured stderr
is already a str because of text=True, and str has no .decode), and the
exception propagates out of build_apks_for_commits, aborting the run
instead of being logged and skipped. -/
theorem C7_revlist_failure_raises_attribute_error :
    get_all_commits_in_commits_range envRevListFail (some "abc") (some "def") "/repo"
      = ([.gitRevList "abc^..def"],
         .error (.attributeError "str object has no attribute decode"))
    ∧ (build_apks_for_commits envRevListFail (some "abc") (some "def") "/repo" "nightly"
         "armeabi-v7a" "").2
        = .error (.attributeError "str object has no attribute decode") :=
  ⟨rfl, rfl⟩

end Backfill
